import Mathlib

/-!
Verification development for the sports-analytics-platform repository.

This file shallowly embeds the play-simulation core of the repository:

* `src/simulation/engine.py` (`SimulationEngine.simulate_play`,
  `SimulationEngine.process_play_result`, the `simulate_game` play loop,
  `calculate_fantasy_points_for_player`);
* `src/models/game.py` (`GameClock`, `GameState`, `Game.simulate_play`,
  `Game.simulate_game` loop);
* `src/models/player.py` (`PlayerStats.calculate_fantasy_points`);
* `src/models/team.py` (`TeamStats.reset_game_stats`, `Team.reset_for_new_game`);
* `src/data/nfl_data_provider.py` (the hard-coded fallback yardage
  distributions).

Python machine integers are modelled as `Int`.  Python floats appearing in the
probability formulas are modelled as `Rat` (the formulas involved -- `0.75`,
`0.02`, `0.04`, `0.1` etc. -- are all exactly representable and the claims are
about exact values).  Every call to the process-wide random source is made
explicit as a field of an oracle record: each oracle field records the outcome
of one random draw (a `Bool` for an outcome of a `random.random() < p` test
whose probability `p` is not itself claim-relevant, a `Rat` for the field-goal
roll whose comparison threshold the claims quantify, an `Int` for
`random.randint` / distribution draws).  Dictionaries that the Python code uses
as records become structures; the per-player stat side effects of
`Game.simulate_play` in `game.py` are not modelled (no claim depends on them),
while the game-state, clock and score effects are modelled in full.
-/

namespace Engine

/-- Play types produced by `SimulationEngine.simulate_play` (engine.py):
the `play_type` entry of the returned dict. -/
inductive PlayType where
  | passP
  | runP
  | punt
  | fieldGoal
deriving DecidableEq, Repr

/-- The `result` entry of the dict returned by `SimulationEngine.simulate_play`
(engine.py): one of `field_goal_good`, `field_goal_missed`, `punt`,
`touchdown`, `interception`, `fumble`, `normal`. -/
inductive ResultTag where
  | fieldGoalGood
  | fieldGoalMissed
  | puntResult
  | touchdownResult
  | interceptionResult
  | fumbleResult
  | normal
deriving DecidableEq, Repr

/-- The mutable game attributes that `SimulationEngine.simulate_game`
(engine.py, module-level `simulate_game`) sets on the `Game` object and that
`simulate_play` / `process_play_result` read and write: `home_score`,
`away_score`, `current_possession` (modelled as the Boolean "home team has
possession"), `field_position`, `current_down`, `yards_to_first`. -/
structure EngineGame where
  home_score : Int
  away_score : Int
  possession_home : Bool
  field_position : Int
  current_down : Int
  yards_to_first : Int
deriving DecidableEq, Repr

/-- One play's worth of random draws for `SimulationEngine.simulate_play`
(engine.py).  `fg_roll` is the `random.random()` value of the field-goal
attempt; `punt_distance` is the `random.randint(35, 50)` draw;
`pass_chosen` is the outcome of `data_provider.get_play_type` (true = pass);
`yards` is the `data_provider.get_yards_gained` draw; `intercepted` and
`fumbled` are the outcomes of the `random.random() < 0.03` and
`random.random() < 0.015` turnover tests. -/
structure PlayOracle where
  fg_roll : Rat
  punt_distance : Int
  pass_chosen : Bool
  yards : Int
  intercepted : Bool
  fumbled : Bool
deriving DecidableEq, Repr

/-- The dict built by `SimulationEngine.simulate_play` (engine.py).
`turnover_interception` / `turnover_fumble` model the optional
`turnover_type` entry; `punt_dist` models the `punt_distance` entry of the
punt dict (0 when absent). -/
structure PlayResult where
  play_type : PlayType
  yards_gained : Int
  down : Int
  distance : Int
  field_position : Int
  possession_change : Bool
  touchdown : Bool
  turnover_interception : Bool
  turnover_fumble : Bool
  punt_dist : Int
  result : ResultTag
deriving DecidableEq, Repr

/-- Field-goal success threshold of engine.py line 581:
`0.75 - ((100 - field_position - 17) * 0.02)`. -/
def fieldGoalThreshold (field_position : Int) : Rat :=
  3/4 - ((100 - (field_position : Rat) - 17) * (2/100))

/-- The punt landing position computed (and then never used) by engine.py
line 615: `new_position = min(95, 100 - (100 - field_position + punt_distance))`. -/
def punt_new_position (field_position punt_distance : Int) : Int :=
  min 95 (100 - (100 - field_position + punt_distance))

/-- Hard-coded fallback yards-gained distribution support for pass plays in
`NFLDataProvider.get_yards_gained` (nfl_data_provider.py lines 135-140). -/
def passFallbackYards : List Int := [-5, -2, 0, 3, 7, 12, 20, 35]

/-- Hard-coded fallback yards-gained distribution support for run plays in
`NFLDataProvider.get_yards_gained` (nfl_data_provider.py lines 141-146). -/
def runFallbackYards : List Int := [-3, -1, 0, 1, 2, 3, 4, 8, 15, 25]

/-- `SimulationEngine.simulate_play` (engine.py lines 569-662).  Returns the
updated game (a made field goal adds 3 points inside this function) together
with the play-result dict.  The oracle supplies each random draw. -/
def simulate_play (g : EngineGame) (o : PlayOracle) : EngineGame × PlayResult :=
  let down := g.current_down
  let distance := g.yards_to_first
  let fp := g.field_position
  if down = 4 ∧ fp ≥ 60 then
    -- Field goal attempt
    if o.fg_roll < fieldGoalThreshold fp then
      let g' := if g.possession_home then
          { g with home_score := g.home_score + 3 }
        else
          { g with away_score := g.away_score + 3 }
      (g', { play_type := .fieldGoal, yards_gained := 0, down := down,
             distance := distance, field_position := fp,
             possession_change := true, touchdown := false,
             turnover_interception := false, turnover_fumble := false,
             punt_dist := 0, result := .fieldGoalGood })
    else
      (g, { play_type := .fieldGoal, yards_gained := 0, down := down,
            distance := distance, field_position := fp,
            possession_change := true, touchdown := false,
            turnover_interception := false, turnover_fumble := false,
            punt_dist := 0, result := .fieldGoalMissed })
  else if down = 4 ∧ fp < 60 then
    -- Punt: `new_position` is computed from `punt_new_position` in the source
    -- but never stored in the play result nor in the game state.
    (g, { play_type := .punt, yards_gained := 0, down := down,
          distance := distance, field_position := fp,
          possession_change := true, touchdown := false,
          turnover_interception := false, turnover_fumble := false,
          punt_dist := o.punt_distance, result := .puntResult })
  else
    let pt : PlayType := if o.pass_chosen then .passP else .runP
    let y := o.yards
    if fp + y ≥ 100 then
      (g, { play_type := pt, yards_gained := 100 - fp, down := down,
            distance := distance, field_position := fp,
            possession_change := false, touchdown := true,
            turnover_interception := false, turnover_fumble := false,
            punt_dist := 0, result := .touchdownResult })
    else if pt = .passP ∧ o.intercepted then
      (g, { play_type := pt, yards_gained := y, down := down,
            distance := distance, field_position := fp,
            possession_change := true, touchdown := false,
            turnover_interception := true, turnover_fumble := false,
            punt_dist := 0, result := .interceptionResult })
    else if pt = .runP ∧ o.fumbled then
      (g, { play_type := pt, yards_gained := y, down := down,
            distance := distance, field_position := fp,
            possession_change := true, touchdown := false,
            turnover_interception := false, turnover_fumble := true,
            punt_dist := 0, result := .fumbleResult })
    else
      (g, { play_type := pt, yards_gained := y, down := down,
            distance := distance, field_position := fp,
            possession_change := false, touchdown := false,
            turnover_interception := false, turnover_fumble := false,
            punt_dist := 0, result := .normal })

/-- `SimulationEngine.process_play_result` (engine.py lines 521-567).
The defensive team is the team without possession, so a possession change
flips `possession_home`. -/
def process_play_result (g : EngineGame) (pr : PlayResult) : EngineGame :=
  if pr.touchdown then
    let g' := if g.possession_home then
        { g with home_score := g.home_score + 7 }
      else
        { g with away_score := g.away_score + 7 }
    { g' with possession_home := !g.possession_home, field_position := 25,
              current_down := 1, yards_to_first := 10 }
  else if pr.possession_change then
    { g with possession_home := !g.possession_home,
             field_position := 100 - g.field_position,
             current_down := 1, yards_to_first := 10 }
  else
    let yards_gained := pr.yards_gained
    let fp' := g.field_position + yards_gained
    if yards_gained ≥ g.yards_to_first then
      { g with field_position := fp', current_down := 1,
               yards_to_first := min 10 (100 - fp') }
    else
      let d' := g.current_down + 1
      if d' > 4 then
        { g with possession_home := !g.possession_home,
                 field_position := 100 - fp',
                 current_down := 1, yards_to_first := 10 }
      else
        { g with field_position := fp', current_down := d',
                 yards_to_first := g.yards_to_first - yards_gained }

/-- One iteration of the `simulate_game` play loop (engine.py lines 188-212):
`simulate_play` followed by `process_play_result`. -/
def playStep (g : EngineGame) (o : PlayOracle) : EngineGame :=
  let (g', pr) := simulate_play g o
  process_play_result g' pr

/-- The game object as initialized by `SimulationEngine.simulate_game`
(engine.py lines 171-178): scores 0, field position 25, 1st and 10; the
coin-flip possession choice is the `startHome` parameter. -/
def engineInit (startHome : Bool) : EngineGame :=
  { home_score := 0, away_score := 0, possession_home := startHome,
    field_position := 25, current_down := 1, yards_to_first := 10 }

/-- The score of the team currently in possession. -/
def possessionScore (g : EngineGame) : Int :=
  if g.possession_home then g.home_score else g.away_score

/-- The `while game.game_clock > 0 and play_count < max_plays` loop of
`SimulationEngine.simulate_game` (engine.py lines 185-212), with
`max_plays = 150` and 40 seconds (`time_between_plays`) consumed per play.
`fuel` is a structural-recursion bound; the guard `count < 150` is the
source's own cap, so fuel `151` from `count = 0` is never exhausted.
Returns the final game and the play count. -/
def gameLoop (os : Nat → PlayOracle) : Nat → Int → Nat → EngineGame →
    EngineGame × Nat
  | 0, _, count, g => (g, count)
  | fuel + 1, clock, count, g =>
    if clock > 0 ∧ count < 150 then
      gameLoop os fuel (clock - 40) (count + 1) (playStep g (os count))
    else
      (g, count)

/-- `SimulationEngine.simulate_game` (engine.py): the game clock is
`4 * 15 * 60 = 3600` seconds; returns the terminal game and the total play
count. -/
def simulate_game (startHome : Bool) (os : Nat → PlayOracle) :
    EngineGame × Nat :=
  gameLoop os 151 3600 0 (engineInit startHome)

end Engine

namespace GameModel

/-- `GameClock` (game.py lines 58-122): quarter, minutes, seconds, running
flag and the `quarter_length` configuration constant (15 minutes). -/
structure GClock where
  quarter : Int
  minutes : Int
  seconds : Int
  is_running : Bool
  quarter_length : Int
deriving DecidableEq, Repr

/-- `GameClock.advance` (game.py lines 69-96).  The Python method recurses
with the leftover seconds when a play straddles a quarter boundary; each
recursive call increments `quarter` and is guarded by `quarter + 1 ≤ 4`, so
`(5 - quarter).toNat` decreases. -/
def GClock.advance (c : GClock) (seconds_elapsed : Int) : GClock :=
  if ¬ c.is_running then c
  else
    let total := c.minutes * 60 + c.seconds - seconds_elapsed
    if total ≤ 0 then
      let remaining := -total
      if _hq : c.quarter + 1 ≤ 4 then
        let c' : GClock := { c with quarter := c.quarter + 1,
                                    minutes := c.quarter_length, seconds := 0 }
        if remaining > 0 then c'.advance remaining else c'
      else
        { c with quarter := c.quarter + 1, minutes := 0, seconds := 0,
                 is_running := false }
    else
      { c with minutes := total / 60, seconds := total % 60 }
termination_by (5 - c.quarter).toNat
decreasing_by
  simp_wf
  omega

/-- `GameClock.is_game_over` (game.py line 111-113). -/
def GClock.is_game_over (c : GClock) : Bool :=
  c.quarter > 4

/-- `GameClock.reset_for_quarter` (game.py lines 106-109). -/
def GClock.reset_for_quarter (c : GClock) : GClock :=
  { c with minutes := c.quarter_length, seconds := 0 }

/-- `GameState` (game.py lines 124-143): scores, possession (the Python field
holds a string -- initially a team id, later the literals `"home"`/`"away"`
written by `change_possession`), down, distance, field position and the
redzone flag.  Timeout counters and the play-history list are not read by any
modelled transition and are omitted. -/
structure GState where
  home_score : Int
  away_score : Int
  possession : String
  down : Int
  distance : Int
  field_position : Int
  is_redzone : Bool
deriving DecidableEq, Repr

/-- `GameState.update_field_position` (game.py lines 145-154): adds the yards,
clamps only the top end at 100, and refreshes the redzone flag. -/
def GState.update_field_position (s : GState) (yards_gained : Int) : GState :=
  let fp := s.field_position + yards_gained
  let fp := if fp > 100 then 100 else fp
  { s with field_position := fp, is_redzone := fp ≥ 80 }

/-- `GameState.update_down_and_distance` (game.py lines 156-173). -/
def GState.update_down_and_distance (s : GState) (yards_gained : Int) : GState :=
  if yards_gained ≥ s.distance then
    let d := if s.field_position > 90 then 100 - s.field_position else 10
    { s with down := 1, distance := d }
  else
    let dist := s.distance - yards_gained
    let dist := if dist > 10 ∧ s.field_position < 90 then 10 else dist
    { s with down := s.down + 1, distance := dist }

/-- `GameState.change_possession` (game.py lines 175-189): mirror the field
position, reset to 1st and 10, floor the position at 20, and flip the
possession string. -/
def GState.change_possession (s : GState) : GState :=
  let fp := 100 - s.field_position
  let fp := if fp < 20 then 20 else fp
  { s with field_position := fp, down := 1, distance := 10,
           possession := if s.possession = "home" then "away" else "home" }

/-- The parts of a `Game` object (game.py lines 210-227) that the modelled
transitions read: the two team ids, the clock, the state, and whether the
offense's depth chart yields a starting QB / RB (`get_starter` returning
`None` switches `simulate_play` to its degenerate fallback branches). -/
structure GGame where
  home_id : String
  away_id : String
  clock : GClock
  state : GState
  hasQB : Bool
  hasRB : Bool
deriving DecidableEq, Repr

/-- One play's worth of random draws for `Game.simulate_play` (game.py).
`is_pass` is the `random.random() < pass_tendency` outcome; `is_complete`
the completion test; `raw_pass_yards` / `raw_run_yards` the value of
`int(base_yards * (0.7 + off_rating * 0.3))` before the `max` clamp;
`long_td_allowed` / `long_td_allowed_run` the `random.random() <= 0.08`
(resp. `<= 0.1`) outcome of the long-touchdown dampener (the source
downgrades the score when the draw exceeds the cutoff); `is_interception` and
`is_fumble` the turnover tests. -/
structure GOracle where
  is_pass : Bool
  is_complete : Bool
  raw_pass_yards : Int
  long_td_allowed : Bool
  is_interception : Bool
  raw_run_yards : Int
  long_td_allowed_run : Bool
  is_fumble : Bool
deriving DecidableEq, Repr

/-- The `result` string of the dict built by `Game.simulate_play`. -/
inductive GTag where
  | complete
  | incomplete
  | interceptionTag
  | runTag
  | fumbleTag
deriving DecidableEq, Repr

/-- The entries of the dict built by `Game.simulate_play` (game.py) that later
code reads: `yards_gained`, the optional flags `is_touchdown`,
`is_interception`, `is_fumble` (absent entries modelled as `false` -- in
particular the pass branch never writes `is_touchdown`), the `result` string
and the play type. -/
structure GResult where
  play_is_pass : Bool
  yards_gained : Int
  is_touchdown : Bool
  is_interception : Bool
  is_fumble : Bool
  tag : GTag
deriving DecidableEq, Repr

end GameModel

namespace GameModel

/-- The play-resolution half of `Game.simulate_play` (game.py lines 249-440):
builds the result dict.  Pass yardage is `max 0` of the computed integer
(`max(0, int(...))`, line 310), run yardage `max (-2)` (line 384).  The
long-touchdown dampener (lines 316-320, 394-398) downgrades a would-be score
from own territory unless the 8% (pass) / 10% (run) draw allows it, capping
the gain at 25 (pass) / 20 (run) yards.  The pass branch never writes an
`is_touchdown` entry into the dict; the run branch writes it only when the
touchdown stands. -/
def buildResult (g : GGame) (o : GOracle) : GResult :=
  if o.is_pass then
    if g.hasQB then
      if o.is_complete then
        let yards := max 0 o.raw_pass_yards
        let td : Bool := g.state.field_position + yards ≥ 100
        if td ∧ g.state.field_position < 75 ∧ ¬ o.long_td_allowed then
          { play_is_pass := true, yards_gained := min yards 25,
            is_touchdown := false, is_interception := false,
            is_fumble := false, tag := .complete }
        else
          { play_is_pass := true, yards_gained := yards,
            is_touchdown := false, is_interception := false,
            is_fumble := false, tag := .complete }
      else
        if o.is_interception then
          { play_is_pass := true, yards_gained := 0, is_touchdown := false,
            is_interception := true, is_fumble := false,
            tag := .interceptionTag }
        else
          { play_is_pass := true, yards_gained := 0, is_touchdown := false,
            is_interception := false, is_fumble := false, tag := .incomplete }
    else
      { play_is_pass := true, yards_gained := 0, is_touchdown := false,
        is_interception := false, is_fumble := false, tag := .incomplete }
  else
    if g.hasRB then
      let yards := max (-2) o.raw_run_yards
      let td0 : Bool := g.state.field_position + yards ≥ 100
      let damp : Bool := td0 && decide (g.state.field_position < 80)
        && !o.long_td_allowed_run
      let yards' := if damp then min yards 20 else yards
      let td : Bool := if damp then false else td0
      { play_is_pass := false, yards_gained := yards',
        is_touchdown := td, is_interception := false,
        is_fumble := o.is_fumble,
        tag := if o.is_fumble then .fumbleTag else .runTag }
    else
      { play_is_pass := false, yards_gained := 0, is_touchdown := false,
        is_interception := false, is_fumble := false, tag := .runTag }

/-- `Game.simulate_play` (game.py lines 249-489): resolve the play, advance
the clock by 30 seconds unless the play stopped it (touchdown, interception,
fumble or incompletion, lines 442-447), then update the game state
(lines 449-471): a turnover changes possession; otherwise field position and
down/distance are updated, a (run) touchdown adds 7 points for the possession
team and changes possession, and `down > 4` is a turnover on downs. -/
def Game.simulate_play (g : GGame) (o : GOracle) : GGame × GResult :=
  let r := buildResult g o
  let clk := if ¬(r.is_touchdown ∨ r.is_interception ∨ r.is_fumble ∨
      r.tag = GTag.incomplete) then g.clock.advance 30 else g.clock
  let g1 : GGame := { g with clock := clk }
  let g2 : GGame :=
    if r.is_interception ∨ r.is_fumble then
      { g1 with state := g1.state.change_possession }
    else
      let st := (g1.state.update_field_position r.yards_gained).update_down_and_distance
        r.yards_gained
      if r.is_touchdown then
        let st' := if g1.state.possession = g1.home_id then
            { st with home_score := st.home_score + 7 }
          else
            { st with away_score := st.away_score + 7 }
        { g1 with state := st'.change_possession }
      else if st.down > 4 then
        { g1 with state := st.change_possession }
      else
        { g1 with state := st }
  (g2, r)

/-- The end-of-quarter patch-up inside the `Game.simulate_game` loop
(game.py lines 503-507): when the clock shows exactly 0:00 and the quarter is
below 4, bump the quarter and reset the clock. -/
def quarterBump (g : GGame) : GGame :=
  if g.clock.seconds = 0 ∧ g.clock.minutes = 0 then
    if g.clock.quarter < 4 then
      { g with clock :=
          ({ g.clock with quarter := g.clock.quarter + 1 }).reset_for_quarter }
    else g
  else g

/-- The `while not self.clock.is_game_over()` loop of `Game.simulate_game`
(game.py lines 500-507).  The Python loop has no play cap, so it is modelled
with explicit fuel: `none` means the loop did not reach a terminal state
within `fuel` iterations; `some g` is the state at loop exit. -/
def simLoop (os : Nat → GOracle) : Nat → Nat → GGame → Option GGame
  | 0, _, _ => none
  | fuel + 1, n, g =>
    if g.clock.is_game_over then some g
    else simLoop os fuel (n + 1) (quarterBump (Game.simulate_play g (os n)).1)

/-- A fresh `Game` as built by the dataclass defaults and `__post_init__`
(game.py lines 59-67, 124-143, 228-239): clock Q1 15:00 not yet running,
scores 0, possession = home team id, 1st and 10 at the 20. -/
def gameInit (home_id away_id : String) (hasQB hasRB : Bool) : GGame :=
  { home_id := home_id, away_id := away_id,
    clock := { quarter := 1, minutes := 15, seconds := 0, is_running := false,
               quarter_length := 15 },
    state := { home_score := 0, away_score := 0, possession := home_id,
               down := 1, distance := 10, field_position := 20,
               is_redzone := false },
    hasQB := hasQB, hasRB := hasRB }

/-- `GameClock.start` (game.py lines 98-100) as applied at the top of
`Game.simulate_game` (line 497). -/
def startClock (g : GGame) : GGame :=
  { g with clock := { g.clock with is_running := true } }

end GameModel

namespace PlayerModel

/-- `PlayerStats` (player.py lines 5-32): the per-game stat accumulator. -/
structure PlayerStats where
  passing_attempts : Int
  passing_completions : Int
  passing_yards : Int
  passing_tds : Int
  passing_ints : Int
  rushing_attempts : Int
  rushing_yards : Int
  rushing_tds : Int
  receiving_targets : Int
  receiving_catches : Int
  receiving_yards : Int
  receiving_tds : Int
  fumbles : Int
  tackles : Int
  sacks : Int
  interceptions : Int
  forced_fumbles : Int
  fumble_recoveries : Int
  defensive_tds : Int

/-- A freshly constructed `PlayerStats()`: every dataclass field defaults
to 0. -/
def PlayerStats.zero : PlayerStats :=
  { passing_attempts := 0, passing_completions := 0, passing_yards := 0,
    passing_tds := 0, passing_ints := 0, rushing_attempts := 0,
    rushing_yards := 0, rushing_tds := 0, receiving_targets := 0,
    receiving_catches := 0, receiving_yards := 0, receiving_tds := 0,
    fumbles := 0, tackles := 0, sacks := 0, interceptions := 0,
    forced_fumbles := 0, fumble_recoveries := 0, defensive_tds := 0 }

/-- `PlayerStats.calculate_fantasy_points` (player.py lines 34-73).
`0.04 = 4/100`, `0.1 = 1/10` are exact in `Rat`.  An unrecognized scoring
system leaves `points = 0`. -/
def PlayerStats.calculate_fantasy_points (s : PlayerStats)
    (scoring_system : String := "standard") : Rat :=
  if scoring_system = "standard" then
    (s.passing_yards : Rat) * (4/100) + (s.passing_tds : Rat) * 4
      - (s.passing_ints : Rat) * 2
      + (s.rushing_yards : Rat) * (1/10) + (s.rushing_tds : Rat) * 6
      + (s.receiving_yards : Rat) * (1/10) + (s.receiving_catches : Rat) * 0
      + (s.receiving_tds : Rat) * 6
      - (s.fumbles : Rat) * 2
  else if scoring_system = "ppr" then
    (s.passing_yards : Rat) * (4/100) + (s.passing_tds : Rat) * 4
      - (s.passing_ints : Rat) * 2
      + (s.rushing_yards : Rat) * (1/10) + (s.rushing_tds : Rat) * 6
      + (s.receiving_yards : Rat) * (1/10) + (s.receiving_catches : Rat) * 1
      + (s.receiving_tds : Rat) * 6
      - (s.fumbles : Rat) * 2
  else 0

/-- Python's `round(x, 2)` on an exact value: round to the nearest multiple
of `1/100`, ties to the even multiple (banker's rounding). -/
def pyRound2 (x : Rat) : Rat :=
  let y := x * 100
  let fl := ⌊y⌋
  let frac := y - fl
  let n : Int :=
    if frac < 1/2 then fl
    else if frac > 1/2 then fl + 1
    else if fl % 2 = 0 then fl else fl + 1
  (n : Rat) / 100

/-- The web-interface positions distinguished by
`SimulationEngine.calculate_fantasy_points_for_player`. -/
inductive WebPosition where
  | qb
  | rb
  | wr
  | te
  | otherPos
deriving DecidableEq, Repr

/-- The entries of the flat stats dict consumed by
`SimulationEngine.calculate_fantasy_points_for_player` (engine.py
lines 486-519); a missing entry defaults to 0 via `stats.get(..., 0)`. -/
structure WebStats where
  pass_yards : Int
  pass_tds : Int
  interceptions : Int
  rush_yards : Int
  rush_tds : Int
  receiving_yards : Int
  receiving_tds : Int
  receptions : Int
  fumbles : Int

/-- `SimulationEngine.calculate_fantasy_points_for_player` (engine.py
lines 486-519): QB scoring `pass_yards / 25 + 4·TD − 2·INT + rush_yards / 10 +
6·rushTD`; RB/WR/TE scoring with half-point receptions; everything else 0;
result passed through `round(points, 2)`. -/
def calculate_fantasy_points_for_player (position : WebPosition)
    (s : WebStats) : Rat :=
  match position with
  | .qb => pyRound2 ((s.pass_yards : Rat) / 25 + (s.pass_tds : Rat) * 4
      - (s.interceptions : Rat) * 2 + (s.rush_yards : Rat) / 10
      + (s.rush_tds : Rat) * 6)
  | .rb | .wr | .te => pyRound2 ((s.rush_yards : Rat) / 10
      + (s.rush_tds : Rat) * 6 + (s.receiving_yards : Rat) / 10
      + (s.receiving_tds : Rat) * 6 + (s.receptions : Rat) * (1/2)
      - (s.fumbles : Rat) * 2)
  | .otherPos => pyRound2 0

end PlayerModel

namespace TeamModel

/-- `TeamStats` (team.py lines 6-40). -/
structure TeamStats where
  points_scored : Int
  total_yards : Int
  passing_yards : Int
  rushing_yards : Int
  first_downs : Int
  third_down_conversions : Int
  third_down_attempts : Int
  fourth_down_conversions : Int
  fourth_down_attempts : Int
  turnovers : Int
  time_of_possession : Int
  points_allowed : Int
  yards_allowed : Int
  passing_yards_allowed : Int
  rushing_yards_allowed : Int
  sacks : Int
  interceptions : Int
  fumbles_recovered : Int
  wins : Int
  losses : Int
  ties : Int

/-- `TeamStats.reset_game_stats` (team.py lines 36-40): zero every field
except `wins`, `losses`, `ties` (the Python loops over `__dict__` skipping
exactly those three names). -/
def TeamStats.reset_game_stats (t : TeamStats) : TeamStats :=
  { points_scored := 0, total_yards := 0, passing_yards := 0,
    rushing_yards := 0, first_downs := 0, third_down_conversions := 0,
    third_down_attempts := 0, fourth_down_conversions := 0,
    fourth_down_attempts := 0, turnovers := 0, time_of_possession := 0,
    points_allowed := 0, yards_allowed := 0, passing_yards_allowed := 0,
    rushing_yards_allowed := 0, sacks := 0, interceptions := 0,
    fumbles_recovered := 0, wins := t.wins, losses := t.losses,
    ties := t.ties }

/-- The fields of `Player` (player.py lines 114-141) that
`Team.reset_for_new_game` can touch or that the frame claim names: the live
stats accumulator, the append-only historical snapshots, and the fantasy
history.  Identity and attribute fields are untouched by every modelled
operation and are represented by `id` and `name`. -/
structure Player where
  id : String
  name : String
  stats : PlayerModel.PlayerStats
  historical_stats : List PlayerModel.PlayerStats
  fantasy_points_history : List Rat

/-- The fields of `Team` (team.py lines 69-90) used by
`Team.reset_for_new_game`: the roster mapping (modelled as an association
list in insertion order) and the stats record. -/
structure Team where
  id : String
  name : String
  roster : List (String × Player)
  stats : TeamStats

/-- `Team.reset_for_new_game` (team.py lines 189-195): reset the team's
game stats and give every roster player a fresh `PlayerStats()` object. -/
def Team.reset_for_new_game (t : Team) : Team :=
  { t with stats := t.stats.reset_game_stats,
           roster := t.roster.map
             (fun ip => (ip.1, { ip.2 with stats := PlayerModel.PlayerStats.zero })) }

end TeamModel

open Engine GameModel PlayerModel TeamModel

/-- C9: Under the standard fantasy scoring formula, a QB with all-zero stats
scores exactly 0 fantasy points, and a QB with 300 passing yards, 3 passing
touchdowns and 1 interception (and nothing else) scores exactly 22.0; this
holds both for `PlayerStats.calculate_fantasy_points` (player.py, standard
system) and for the QB branch of
`SimulationEngine.calculate_fantasy_points_for_player` (engine.py). -/
theorem C9_standard_fantasy_points :
    PlayerStats.calculate_fantasy_points PlayerStats.zero "standard" = 0 ∧
    PlayerStats.calculate_fantasy_points
      { PlayerStats.zero with
        passing_yards := 300, passing_tds := 3,
        passing_ints := 1 } "standard" = 22 ∧
    calculate_fantasy_points_for_player WebPosition.qb
      { pass_yards := 0, pass_tds := 0, interceptions := 0, rush_yards := 0,
        rush_tds := 0, receiving_yards := 0, receiving_tds := 0,
        receptions := 0, fumbles := 0 } = 0 ∧
    calculate_fantasy_points_for_player WebPosition.qb
      { pass_yards := 300, pass_tds := 3, interceptions := 1, rush_yards := 0,
        rush_tds := 0, receiving_yards := 0, receiving_tds := 0,
        receptions := 0, fumbles := 0 } = 22 := by
  refine ⟨?_, ?_, ?_, ?_⟩ <;>
    norm_num [PlayerStats.calculate_fantasy_points, PlayerStats.zero,
      calculate_fantasy_points_for_player, pyRound2]

/-- C10: `Team.reset_for_new_game` zeroes every per-game team stat counter
while leaving `wins`, `losses`, `ties` unchanged, and replaces every roster
player's live stats with a fresh all-zero stats object while leaving the
player's `historical_stats` and `fantasy_points_history` (and identity)
unchanged. -/
theorem C10_reset_for_new_game (t : Team) :
    ((t.reset_for_new_game).stats.wins = t.stats.wins ∧
     (t.reset_for_new_game).stats.losses = t.stats.losses ∧
     (t.reset_for_new_game).stats.ties = t.stats.ties ∧
     (t.reset_for_new_game).stats.points_scored = 0 ∧
     (t.reset_for_new_game).stats.total_yards = 0 ∧
     (t.reset_for_new_game).stats.passing_yards = 0 ∧
     (t.reset_for_new_game).stats.rushing_yards = 0 ∧
     (t.reset_for_new_game).stats.first_downs = 0 ∧
     (t.reset_for_new_game).stats.third_down_conversions = 0 ∧
     (t.reset_for_new_game).stats.third_down_attempts = 0 ∧
     (t.reset_for_new_game).stats.fourth_down_conversions = 0 ∧
     (t.reset_for_new_game).stats.fourth_down_attempts = 0 ∧
     (t.reset_for_new_game).stats.turnovers = 0 ∧
     (t.reset_for_new_game).stats.time_of_possession = 0 ∧
     (t.reset_for_new_game).stats.points_allowed = 0 ∧
     (t.reset_for_new_game).stats.yards_allowed = 0 ∧
     (t.reset_for_new_game).stats.passing_yards_allowed = 0 ∧
     (t.reset_for_new_game).stats.rushing_yards_allowed = 0 ∧
     (t.reset_for_new_game).stats.sacks = 0 ∧
     (t.reset_for_new_game).stats.interceptions = 0 ∧
     (t.reset_for_new_game).stats.fumbles_recovered = 0) ∧
    (∀ pid p, (pid, p) ∈ t.roster →
      ∃ p', (pid, p') ∈ (t.reset_for_new_game).roster ∧
        p'.stats = PlayerStats.zero ∧
        p'.historical_stats = p.historical_stats ∧
        p'.fantasy_points_history = p.fantasy_points_history ∧
        p'.id = p.id ∧ p'.name = p.name) := by
  refine ⟨⟨rfl, rfl, rfl, rfl, rfl, rfl, rfl, rfl, rfl, rfl, rfl, rfl, rfl,
    rfl, rfl, rfl, rfl, rfl, rfl, rfl, rfl⟩, ?_⟩
  intro pid p hp
  exact ⟨{ p with stats := PlayerStats.zero },
    List.mem_map_of_mem _ hp, rfl, rfl, rfl, rfl, rfl⟩

/-- A concrete roster player with nonzero live stats and nonempty history,
used to witness C10. -/
def c10Player : Player :=
  { id := "p1", name := "Test Quarterback",
    stats := { PlayerStats.zero with passing_yards := 120, passing_tds := 1 },
    historical_stats := [{ PlayerStats.zero with passing_yards := 250 }],
    fantasy_points_history := [10] }

/-- A concrete team with one rostered player and nonzero stats, used to
witness C10. -/
def c10Team : Team :=
  { id := "T1", name := "Testers", roster := [("p1", c10Player)],
    stats := {
      points_scored := 24, total_yards := 380, passing_yards := 290,
      rushing_yards := 90, first_downs := 18, third_down_conversions := 5,
      third_down_attempts := 11, fourth_down_conversions := 1,
      fourth_down_attempts := 2, turnovers := 1, time_of_possession := 1825,
      points_allowed := 17, yards_allowed := 310,
      passing_yards_allowed := 230, rushing_yards_allowed := 80, sacks := 3,
      interceptions := 2, fumbles_recovered := 1, wins := 2, losses := 1,
      ties := 0 } }

/-- Witness for C10 at the concrete team `c10Team`. -/
theorem C10_reset_for_new_game_witness :
    ∃ p', ("p1", p') ∈ (c10Team.reset_for_new_game).roster ∧
      p'.stats = PlayerStats.zero ∧
      p'.historical_stats = c10Player.historical_stats ∧
      p'.fantasy_points_history = c10Player.fantasy_points_history ∧
      p'.id = c10Player.id ∧ p'.name = c10Player.name :=
  (C10_reset_for_new_game c10Team).2 "p1" c10Player (by simp [c10Team])

/-- C4: on 4th down with field position ≥ 60 the engine.py resolver always
attempts a field goal (never a punt or scrimmage play); the attempt succeeds
exactly when the random draw is below
`0.75 − ((100 − field_position) − 17) × 0.02` (`0.39` at field position 65);
success adds 3 points to the kicking team, and both success and failure flip
possession. -/
theorem C4_fourth_down_field_goal (g : EngineGame) (o : PlayOracle)
    (hdown : g.current_down = 4) (hfp : g.field_position ≥ 60) :
    (Engine.simulate_play g o).2.play_type = PlayType.fieldGoal ∧
    ((Engine.simulate_play g o).2.result = ResultTag.fieldGoalGood ↔
      o.fg_roll < fieldGoalThreshold g.field_position) ∧
    (o.fg_roll < fieldGoalThreshold g.field_position →
      possessionScore (Engine.simulate_play g o).1 = possessionScore g + 3) ∧
    (¬ o.fg_roll < fieldGoalThreshold g.field_position →
      (Engine.simulate_play g o).1 = g) ∧
    (Engine.simulate_play g o).2.possession_change = true ∧
    (Engine.playStep g o).possession_home = !g.possession_home ∧
    fieldGoalThreshold 65 = 39/100 := by
  have hth : fieldGoalThreshold 65 = 39/100 := by
    norm_num [fieldGoalThreshold]
  by_cases hroll : o.fg_roll < fieldGoalThreshold g.field_position <;>
    simp only [Engine.simulate_play, Engine.playStep,
      Engine.process_play_result, possessionScore, hdown, hfp, hroll] <;>
    by_cases hp : g.possession_home <;>
    simp_all

/-- Witness for C4 at a concrete 4th-and-1 from the 65-yard line with a
successful roll. -/
theorem C4_fourth_down_field_goal_witness :
    ((Engine.simulate_play
        { home_score := 0, away_score := 0, possession_home := true,
          field_position := 65, current_down := 4, yards_to_first := 1 }
        { fg_roll := 1/10, punt_distance := 40, pass_chosen := true,
          yards := 0, intercepted := false, fumbled := false }).2.play_type
      = PlayType.fieldGoal) ∧
    (1/10 : Rat) < fieldGoalThreshold 65 := by
  refine ⟨(C4_fourth_down_field_goal _ _ rfl (by norm_num)).1, ?_⟩
  norm_num [fieldGoalThreshold]

/-- C5 as stated is false: the punt landing position
`min(95, 100 − (100 − field_position + punt_distance))` is computed by
engine.py but never applied (the play result carries only a possession
change, which `process_play_result` resolves as a plain mirror), and the
formula value itself can be negative.  At `field_position = 30`,
`punt_distance = 40` (within `[35, 50]`) the formula gives `−10`, which is
outside `[0, 100]`, while the state after the punt play actually has field
position `70 = 100 − 30`. -/
theorem C5_punt_counterexample :
    punt_new_position 30 40 = -10 ∧
    (Engine.playStep
      { home_score := 0, away_score := 0, possession_home := true,
        field_position := 30, current_down := 4, yards_to_first := 1 }
      { fg_roll := 1/2, punt_distance := 40, pass_chosen := true,
        yards := 0, intercepted := false, fumbled := false }).field_position
      = 70 ∧
    ¬ ((70 : Int) = -10) ∧ ¬ ((0 : Int) ≤ -10) ∧
    (35 : Int) ≤ 40 ∧ (40 : Int) ≤ 50 := by
  refine ⟨by decide, ?_, by decide, by decide, by decide, by decide⟩
  decide

/-- C5 amended: every 4th-down play with field position below 60 is a punt
and changes possession, but the receiving team's resulting field position is
`100 − field_position` (the `min(95, ...)` landing formula is computed and
discarded); that resulting position lies within `[0, 100]` whenever the
pre-play position does. -/
theorem C5_punt_amended (g : EngineGame) (o : PlayOracle)
    (hdown : g.current_down = 4) (hfp : g.field_position < 60) :
    (Engine.simulate_play g o).2.play_type = PlayType.punt ∧
    (Engine.simulate_play g o).2.possession_change = true ∧
    (Engine.playStep g o).field_position = 100 - g.field_position ∧
    (Engine.playStep g o).current_down = 1 ∧
    (Engine.playStep g o).yards_to_first = 10 ∧
    (Engine.playStep g o).possession_home = !g.possession_home ∧
    (0 ≤ g.field_position → g.field_position ≤ 100 →
      0 ≤ (Engine.playStep g o).field_position ∧
      (Engine.playStep g o).field_position ≤ 100) := by
  have hA : ¬ (g.current_down = 4 ∧ g.field_position ≥ 60) := by omega
  have hB : g.current_down = 4 ∧ g.field_position < 60 := ⟨hdown, hfp⟩
  simp only [Engine.playStep, Engine.simulate_play]
  rw [if_neg hA, if_pos hB]
  simp [Engine.process_play_result]
  omega

/-- Witness for C5 (amended) at a concrete 4th-and-5 from the 40-yard
line. -/
theorem C5_punt_amended_witness :
    (Engine.playStep
      { home_score := 0, away_score := 0, possession_home := false,
        field_position := 40, current_down := 4, yards_to_first := 5 }
      { fg_roll := 1/2, punt_distance := 44, pass_chosen := false,
        yards := 2, intercepted := false, fumbled := false }).field_position
      = 100 - 40 := by
  exact (C5_punt_amended _ _ rfl (by decide)).2.2.1

/-- C3 as stated is false for the engine.py transition: a possession change
there mirrors the field position with no floor at 20.  An interception on a
pass from the 95-yard line leaves the new offense at `100 − 95 = 5`, not
20. -/
theorem C3_possession_change_counterexample :
    (Engine.playStep
      { home_score := 0, away_score := 0, possession_home := true,
        field_position := 95, current_down := 1, yards_to_first := 10 }
      { fg_roll := 1/2, punt_distance := 40, pass_chosen := true,
        yards := 0, intercepted := true, fumbled := false }).field_position
      = 5 ∧
    ((100 : Int) - 95 < 20) ∧ ¬ ((5 : Int) = 20) := by
  refine ⟨?_, by decide, by decide⟩
  decide

/-- C3 amended: after a possession change, downs reset to 1st-and-10 in both
implementations; the new field position is the mirror `100 − old` with the
floor at 20 applied only in game.py's `GameState.change_possession` — the
engine.py `process_play_result` mirrors without any floor. -/
theorem C3_possession_change_amended :
    (∀ s : GState,
      (s.change_possession).field_position =
        max 20 (100 - s.field_position) ∧
      (s.change_possession).down = 1 ∧
      (s.change_possession).distance = 10) ∧
    (∀ (g : EngineGame) (pr : Engine.PlayResult),
      pr.touchdown = false → pr.possession_change = true →
      (Engine.process_play_result g pr).field_position =
        100 - g.field_position ∧
      (Engine.process_play_result g pr).current_down = 1 ∧
      (Engine.process_play_result g pr).yards_to_first = 10 ∧
      (Engine.process_play_result g pr).possession_home =
        !g.possession_home) := by
  constructor
  · intro s
    refine ⟨?_, rfl, rfl⟩
    simp only [GState.change_possession]
    split_ifs <;> omega
  · intro g pr htd hpc
    simp [Engine.process_play_result, htd, hpc]

/-- Witness for C3 (amended): a concrete game.py possession change from the
90-yard line is floored to 20, and a concrete engine.py turnover play-result
mirrors the 30-yard line to 70. -/
theorem C3_possession_change_amended_witness :
    (GState.change_possession
      { home_score := 0, away_score := 0, possession := "home", down := 2,
        distance := 7, field_position := 90, is_redzone := true
        }).field_position = max 20 (100 - 90) ∧
    (Engine.process_play_result
      { home_score := 3, away_score := 0, possession_home := true,
        field_position := 30, current_down := 3, yards_to_first := 4 }
      { play_type := PlayType.runP, yards_gained := 0, down := 3,
        distance := 4, field_position := 30, possession_change := true,
        touchdown := false, turnover_interception := false,
        turnover_fumble := true, punt_dist := 0,
        result := ResultTag.fumbleResult }).field_position = 100 - 30 := by
  constructor
  · exact (C3_possession_change_amended.1 _).1
  · exact (C3_possession_change_amended.2 _ _ rfl rfl).1

/-- Helper: the play-result component of game.py's `Game.simulate_play` is
the dict built by the resolution half. -/
theorem Game.simulate_play_snd (g : GGame) (o : GOracle) :
    (Game.simulate_play g o).2 = buildResult g o := rfl

/-- C7 amended: in the engine.py resolver a scrimmage touchdown is never
also a turnover — the result carries no interception or fumble flag and no
possession change, and the turnover branch is only reached when the play is
not a touchdown.  (In game.py's `Game.simulate_play` a rushing touchdown can
simultaneously be ruled a fumble; see the counterexample.) -/
theorem C7_touchdown_excludes_turnover (g : EngineGame) (o : PlayOracle)
    (h4 : g.current_down ≠ 4)
    (htd : (Engine.simulate_play g o).2.touchdown = true) :
    (Engine.simulate_play g o).2.turnover_interception = false ∧
    (Engine.simulate_play g o).2.turnover_fumble = false ∧
    (Engine.simulate_play g o).2.possession_change = false ∧
    (Engine.simulate_play g o).2.result = ResultTag.touchdownResult := by
  have hA : ¬ (g.current_down = 4 ∧ g.field_position ≥ 60) := fun h => h4 h.1
  have hB : ¬ (g.current_down = 4 ∧ g.field_position < 60) := fun h => h4 h.1
  simp only [Engine.simulate_play] at htd ⊢
  rw [if_neg hA, if_neg hB] at htd ⊢
  by_cases hy : g.field_position + o.yards ≥ 100
  · rw [if_pos hy] at htd ⊢
    exact ⟨rfl, rfl, rfl, rfl⟩
  · rw [if_neg hy] at htd ⊢
    split_ifs at htd

/-- Witness for C7 (amended) at a concrete 2nd-and-5 pass from the 96-yard
line gaining 7 (a touchdown). -/
theorem C7_touchdown_excludes_turnover_witness :
    ((Engine.simulate_play
      { home_score := 0, away_score := 0, possession_home := true,
        field_position := 96, current_down := 2, yards_to_first := 5 }
      { fg_roll := 1/2, punt_distance := 40, pass_chosen := true,
        yards := 7, intercepted := false, fumbled := false
        }).2.turnover_interception = false) ∧
    ((Engine.simulate_play
      { home_score := 0, away_score := 0, possession_home := true,
        field_position := 96, current_down := 2, yards_to_first := 5 }
      { fg_roll := 1/2, punt_distance := 40, pass_chosen := true,
        yards := 7, intercepted := false, fumbled := false
        }).2.possession_change = false) := by
  have h := C7_touchdown_excludes_turnover
    { home_score := 0, away_score := 0, possession_home := true,
      field_position := 96, current_down := 2, yards_to_first := 5 }
    { fg_roll := 1/2, punt_distance := 40, pass_chosen := true,
      yards := 7, intercepted := false, fumbled := false }
    (by decide) (by decide)
  exact ⟨h.1, h.2.2.1⟩

/-- A concrete game.py game at the 95-yard line, offense with QB and RB. -/
def c7Game : GGame :=
  { home_id := "home", away_id := "away",
    clock := { quarter := 1, minutes := 15, seconds := 0, is_running := true,
               quarter_length := 15 },
    state := { home_score := 0, away_score := 0, possession := "home",
               down := 1, distance := 10, field_position := 95,
               is_redzone := true },
    hasQB := true, hasRB := true }

/-- A run play gaining 10 yards with the fumble roll coming up true. -/
def c7Oracle : GOracle :=
  { is_pass := false, is_complete := false, raw_pass_yards := 0,
    long_td_allowed := false, is_interception := false, raw_run_yards := 10,
    long_td_allowed_run := false, is_fumble := true }

/-- C7 as stated is false for game.py's `Game.simulate_play`: a run from the
95-yard line gaining 10 is marked a touchdown AND a fumble (the fumble check
is not gated on the touchdown), and the state update then treats it as a
turnover: possession changes, no points are scored, and the field position is
mirrored (and floored to 20). -/
theorem C7_touchdown_turnover_counterexample :
    ((Game.simulate_play c7Game c7Oracle).2.is_touchdown = true) ∧
    ((Game.simulate_play c7Game c7Oracle).2.is_fumble = true) ∧
    ((Game.simulate_play c7Game c7Oracle).1.state.home_score = 0) ∧
    ((Game.simulate_play c7Game c7Oracle).1.state.away_score = 0) ∧
    ((Game.simulate_play c7Game c7Oracle).1.state.field_position = 20) := by
  decide

/-- C2 amended: in the engine.py resolver a scrimmage play is marked a
touchdown exactly when `field_position + yards_drawn ≥ 100`, and its recorded
`yards_gained` is then adjusted so that `field_position + yards_gained = 100`
exactly.  In game.py's `Game.simulate_play` only the forward direction holds:
a play marked touchdown satisfies `field_position + yards_gained ≥ 100`
(yards are not adjusted, the long-gain dampener can veto scores, and passing
touchdowns are never marked; see the counterexample). -/
theorem C2_touchdown_iff (g : EngineGame) (o : PlayOracle)
    (h4 : g.current_down ≠ 4) :
    ((Engine.simulate_play g o).2.touchdown = true ↔
      g.field_position + o.yards ≥ 100) ∧
    ((Engine.simulate_play g o).2.touchdown = true →
      g.field_position + (Engine.simulate_play g o).2.yards_gained = 100) ∧
    (∀ (gg : GGame) (oo : GOracle),
      (Game.simulate_play gg oo).2.is_touchdown = true →
      gg.state.field_position + (Game.simulate_play gg oo).2.yards_gained
        ≥ 100) := by
  have hA : ¬ (g.current_down = 4 ∧ g.field_position ≥ 60) := fun h => h4 h.1
  have hB : ¬ (g.current_down = 4 ∧ g.field_position < 60) := fun h => h4 h.1
  refine ⟨?_, ?_, ?_⟩
  · simp only [Engine.simulate_play]
    rw [if_neg hA, if_neg hB]
    by_cases hy : g.field_position + o.yards ≥ 100
    · rw [if_pos hy]
      simpa using hy
    · rw [if_neg hy]
      split_ifs <;> simp_all
  · simp only [Engine.simulate_play]
    rw [if_neg hA, if_neg hB]
    by_cases hy : g.field_position + o.yards ≥ 100
    · rw [if_pos hy]
      intro _
      simp only
      omega
    · rw [if_neg hy]
      split_ifs <;> simp_all
  · intro gg oo
    rw [Game.simulate_play_snd]
    simp only [buildResult]
    split_ifs <;> simp_all

/-- A concrete game.py game at the 95-yard line for the C2 counterexample. -/
def c2Game : GGame :=
  { home_id := "home", away_id := "away",
    clock := { quarter := 1, minutes := 15, seconds := 0, is_running := true,
               quarter_length := 15 },
    state := { home_score := 0, away_score := 0, possession := "home",
               down := 1, distance := 10, field_position := 95,
               is_redzone := true },
    hasQB := true, hasRB := true }

/-- A clean run play gaining 10 yards (no fumble). -/
def c2Oracle : GOracle :=
  { is_pass := false, is_complete := false, raw_pass_yards := 0,
    long_td_allowed := false, is_interception := false, raw_run_yards := 10,
    long_td_allowed_run := false, is_fumble := false }

/-- C2 as stated is false for game.py's `Game.simulate_play`: a run from the
95-yard line gaining 10 is marked a touchdown with `yards_gained = 10`
recorded unadjusted, so `field_position + yards_gained = 105 ≠ 100`. -/
theorem C2_touchdown_counterexample :
    ((Game.simulate_play c2Game c2Oracle).2.is_touchdown = true) ∧
    ((Game.simulate_play c2Game c2Oracle).2.yards_gained = 10) ∧
    c2Game.state.field_position = 95 ∧
    ¬ ((95 : Int) + 10 = 100) := by
  decide

/-- Witness for C2 (amended) at a concrete 1st-and-10 pass from the 95-yard
line drawing 12 yards. -/
theorem C2_touchdown_iff_witness :
    ((Engine.simulate_play
      { home_score := 0, away_score := 0, possession_home := true,
        field_position := 95, current_down := 1, yards_to_first := 10 }
      { fg_roll := 1/2, punt_distance := 40, pass_chosen := true,
        yards := 12, intercepted := false, fumbled := false
        }).2.touchdown = true) ∧
    ((95 : Int) + (Engine.simulate_play
      { home_score := 0, away_score := 0, possession_home := true,
        field_position := 95, current_down := 1, yards_to_first := 10 }
      { fg_roll := 1/2, punt_distance := 40, pass_chosen := true,
        yards := 12, intercepted := false, fumbled := false
        }).2.yards_gained = 100) := by
  have h := C2_touchdown_iff
    { home_score := 0, away_score := 0, possession_home := true,
      field_position := 95, current_down := 1, yards_to_first := 10 }
    { fg_roll := 1/2, punt_distance := 40, pass_chosen := true,
      yards := 12, intercepted := false, fumbled := false }
    (by decide)
  have htd := h.1.mpr (by decide)
  exact ⟨htd, h.2.1 htd⟩

/-- C8 amended: for a non-scoring, non-turnover play the engine.py transition
behaves exactly as claimed (first down resets to 1st with distance
`min 10 (100 − new_position)`, otherwise the down increments and the distance
decreases by the yards gained, with down > 4 a turnover-on-downs), and the
scenario (1st-and-10 at the 20, gain 12 → 1st-and-10 at the 32) holds in both
implementations; game.py's `update_down_and_distance` decreases the distance
by the yards gained only when the resulting distance is at most 10 (a loss
pushing it above 10 is clamped back to 10 below the 90-yard line). -/
theorem C8_down_and_distance :
    (∀ (g : EngineGame) (pr : Engine.PlayResult),
      pr.touchdown = false → pr.possession_change = false →
      (pr.yards_gained ≥ g.yards_to_first →
        (Engine.process_play_result g pr).field_position =
          g.field_position + pr.yards_gained ∧
        (Engine.process_play_result g pr).current_down = 1 ∧
        (Engine.process_play_result g pr).yards_to_first =
          min 10 (100 - (g.field_position + pr.yards_gained))) ∧
      (pr.yards_gained < g.yards_to_first → g.current_down + 1 ≤ 4 →
        (Engine.process_play_result g pr).field_position =
          g.field_position + pr.yards_gained ∧
        (Engine.process_play_result g pr).current_down =
          g.current_down + 1 ∧
        (Engine.process_play_result g pr).yards_to_first =
          g.yards_to_first - pr.yards_gained) ∧
      (pr.yards_gained < g.yards_to_first → g.current_down + 1 > 4 →
        (Engine.process_play_result g pr).possession_home =
          !g.possession_home ∧
        (Engine.process_play_result g pr).field_position =
          100 - (g.field_position + pr.yards_gained) ∧
        (Engine.process_play_result g pr).current_down = 1 ∧
        (Engine.process_play_result g pr).yards_to_first = 10)) ∧
    ((Engine.playStep
      { home_score := 0, away_score := 0, possession_home := true,
        field_position := 20, current_down := 1, yards_to_first := 10 }
      { fg_roll := 1/2, punt_distance := 40, pass_chosen := true,
        yards := 12, intercepted := false, fumbled := false }) =
      { home_score := 0, away_score := 0, possession_home := true,
        field_position := 32, current_down := 1, yards_to_first := 10 }) ∧
    (((GState.update_field_position
       { home_score := 0, away_score := 0, possession := "home", down := 1,
         distance := 10, field_position := 20, is_redzone := false }
       12).update_down_and_distance 12).down = 1 ∧
     ((GState.update_field_position
       { home_score := 0, away_score := 0, possession := "home", down := 1,
         distance := 10, field_position := 20, is_redzone := false }
       12).update_down_and_distance 12).distance = 10 ∧
     ((GState.update_field_position
       { home_score := 0, away_score := 0, possession := "home", down := 1,
         distance := 10, field_position := 20, is_redzone := false }
       12).update_down_and_distance 12).field_position = 32) ∧
    (∀ (s : GState) (y : Int), y < s.distance → s.distance - y ≤ 10 →
      (s.update_down_and_distance y).down = s.down + 1 ∧
      (s.update_down_and_distance y).distance = s.distance - y) := by
  refine ⟨?_, by decide, by decide, ?_⟩
  · intro g pr htd hpc
    simp only [Engine.process_play_result, htd, hpc, Bool.false_eq_true,
      if_false]
    refine ⟨?_, ?_, ?_⟩
    · intro hge
      rw [if_pos hge]
      exact ⟨rfl, rfl, rfl⟩
    · intro hlt h4
      rw [if_neg (by omega : ¬ pr.yards_gained ≥ g.yards_to_first),
        if_neg (by omega : ¬ g.current_down + 1 > 4)]
      exact ⟨rfl, rfl, rfl⟩
    · intro hlt h4
      rw [if_neg (by omega : ¬ pr.yards_gained ≥ g.yards_to_first),
        if_pos (by omega : g.current_down + 1 > 4)]
      exact ⟨rfl, rfl, rfl, rfl⟩
  · intro s y h1 h2
    simp only [GState.update_down_and_distance]
    rw [if_neg (by omega : ¬ y ≥ s.distance),
      if_neg (fun h => absurd h.1 (by omega))]
    exact ⟨rfl, rfl⟩

/-- Witness for C8 (amended) at a concrete non-scoring play: 2nd-and-8 at
the 40, gain 3. -/
theorem C8_down_and_distance_witness :
    (Engine.process_play_result
      { home_score := 0, away_score := 0, possession_home := true,
        field_position := 40, current_down := 2, yards_to_first := 8 }
      { play_type := PlayType.runP, yards_gained := 3, down := 2,
        distance := 8, field_position := 40, possession_change := false,
        touchdown := false, turnover_interception := false,
        turnover_fumble := false, punt_dist := 0,
        result := ResultTag.normal }).current_down = 2 + 1 := by
  exact ((C8_down_and_distance.1 _ _ rfl rfl).2.1 (by decide) (by decide)).2.1

/-- C8 as stated is false for game.py's `GameState.update_down_and_distance`:
on a 2-yard loss from 1st-and-10 at the 20, the claim requires the distance
to become `10 − (−2) = 12`, but the code clamps it back to 10. -/
theorem C8_distance_counterexample :
    ((GState.update_down_and_distance
      { home_score := 0, away_score := 0, possession := "home", down := 1,
        distance := 10, field_position := 20, is_redzone := false }
      (-2)).down = 2) ∧
    ((GState.update_down_and_distance
      { home_score := 0, away_score := 0, possession := "home", down := 1,
        distance := 10, field_position := 20, is_redzone := false }
      (-2)).distance = 10) ∧
    ¬ ((10 : Int) = 10 - (-2)) := by
  decide

/-- One pass-play oracle for the C1 counterexample trace. -/
def c1Oracle (y : Int) (intercepted : Bool) : PlayOracle :=
  { fg_roll := 1/2, punt_distance := 40, pass_chosen := true, yards := y,
    intercepted := intercepted, fumbled := false }

/-- C1 as stated is false: engine.py never clamps the field position below 0.
From the engine's initial state (1st-and-10 at the 25), five plays whose
yardages all lie in the pass fallback distribution — gains of 35 and 35, an
interception on a 3-yard draw, then two 5-yard losses — leave
`field_position = −5 < 0`. -/
theorem C1_field_position_counterexample :
    (([c1Oracle 35 false, c1Oracle 35 false, c1Oracle 3 true,
       c1Oracle (-5) false, c1Oracle (-5) false].foldl Engine.playStep
       (engineInit true)).field_position = -5) ∧
    ((-5 : Int) < 0) ∧
    (∀ o ∈ [c1Oracle 35 false, c1Oracle 35 false, c1Oracle 3 true,
       c1Oracle (-5) false, c1Oracle (-5) false],
       o.yards ∈ passFallbackYards) := by
  decide

/-- C1 amended: a single engine.py play from a state with
`5 ≤ field_position ≤ 100` and `1 ≤ distance ≤ 95`, whose yardage draw is at
least −5 (the minimum of the fallback distributions), ends with
`0 ≤ field_position ≤ 100` and `1 ≤ distance ≤ 100`.  From a field position
below 5 a 5-yard loss can leave the position negative (no lower clamp); see
the counterexample. -/
theorem C1_bounds_amended (g : EngineGame) (o : PlayOracle)
    (hfp0 : 5 ≤ g.field_position) (hfp1 : g.field_position ≤ 100)
    (hd0 : 1 ≤ g.yards_to_first) (hd1 : g.yards_to_first ≤ 95)
    (hy : -5 ≤ o.yards) :
    0 ≤ (Engine.playStep g o).field_position ∧
    (Engine.playStep g o).field_position ≤ 100 ∧
    1 ≤ (Engine.playStep g o).yards_to_first ∧
    (Engine.playStep g o).yards_to_first ≤ 100 := by
  simp only [Engine.playStep, Engine.simulate_play]
  split_ifs <;> simp_all [Engine.process_play_result] <;>
    first
      | omega
      | (split_ifs <;> simp_all <;> omega)

/-- Witness for C1 (amended) at a concrete 1st-and-10 at the 25 with a
3-yard pass. -/
theorem C1_bounds_amended_witness :
    0 ≤ (Engine.playStep
      { home_score := 0, away_score := 0, possession_home := true,
        field_position := 25, current_down := 1, yards_to_first := 10 }
      { fg_roll := 1/2, punt_distance := 40, pass_chosen := true,
        yards := 3, intercepted := false, fumbled := false
        }).field_position := by
  exact (C1_bounds_amended _ _ (by decide) (by decide) (by decide)
    (by decide) (by decide)).1

/-- Helper: the engine.py play loop (`while game_clock > 0 and
play_count < 150`) never returns a play count above 150. -/
theorem gameLoop_count_le (os : Nat → PlayOracle) :
    ∀ (fuel : Nat) (clock : Int) (count : Nat) (g : EngineGame),
      count ≤ 150 → (Engine.gameLoop os fuel clock count g).2 ≤ 150 := by
  intro fuel
  induction fuel with
  | zero =>
    intro clock count g h
    simpa [Engine.gameLoop] using h
  | succ n ih =>
    intro clock count g h
    rw [show Engine.gameLoop os (n + 1) clock count g =
        (if clock > 0 ∧ count < 150 then
          Engine.gameLoop os n (clock - 40) (count + 1)
            (Engine.playStep g (os count))
        else (g, count)) from rfl]
    split_ifs with hc
    · exact ih _ _ _ (by omega)
    · simpa using h

/-- C6 amended: the engine.py `simulate_game` loop executes at most the
150-play safety cap for every random stream; game.py's `simulate_game` loop,
whenever it terminates, exits in a state with `clock.quarter > 4` — but it
has no play cap and need not stop within 150 plays (see the
counterexample). -/
theorem C6_termination_amended :
    (∀ (startHome : Bool) (os : Nat → PlayOracle),
      (Engine.simulate_game startHome os).2 ≤ 150) ∧
    (∀ (os : Nat → GOracle) (fuel n : Nat) (g g' : GGame),
      simLoop os fuel n g = some g' → g'.clock.quarter > 4) := by
  constructor
  · intro startHome os
    exact gameLoop_count_le os 151 3600 0 _ (by omega)
  · intro os fuel
    induction fuel with
    | zero =>
      intro n g g' h
      simp [simLoop] at h
    | succ k ih =>
      intro n g g' h
      rw [show simLoop os (k + 1) n g =
          (if g.clock.is_game_over then some g
           else simLoop os k (n + 1)
             (quarterBump (Game.simulate_play g (os n)).1)) from rfl] at h
      by_cases hov : g.clock.is_game_over = true
      · rw [if_pos hov] at h
        injection h with h2
        subst h2
        simpa [GClock.is_game_over] using hov
      · rw [if_neg hov] at h
        exact ih _ _ _ h

/-- A clock-stopping game.py play: an incomplete pass (no interception). -/
def c6Oracle : GOracle :=
  { is_pass := true, is_complete := false, raw_pass_yards := 0,
    long_td_allowed := false, is_interception := false, raw_run_yards := 0,
    long_td_allowed_run := false, is_fumble := false }

/-- The game.py game at kickoff with the clock started, as
`Game.simulate_game` sets it up. -/
def c6Start : GGame := startClock (gameInit "home" "away" true true)

/-- C6 as stated is false for game.py's `Game.simulate_game`: incomplete
passes never advance the clock, so after 151 loop iterations (more than the
claimed 150-play cap) the loop has still not reached a terminal state. -/
theorem C6_no_play_cap_counterexample :
    (simLoop (fun _ => c6Oracle) 151 0 c6Start).isNone = true := by
  decide

/-- A concrete terminal game.py state (quarter 5). -/
def c6Over : GGame :=
  { home_id := "home", away_id := "away",
    clock := { quarter := 5, minutes := 0, seconds := 0, is_running := false,
               quarter_length := 15 },
    state := { home_score := 21, away_score := 17, possession := "away",
               down := 1, distance := 10, field_position := 25,
               is_redzone := false },
    hasQB := true, hasRB := true }

/-- A constant engine.py play stream (4-yard runs) for the C6 witness. -/
def c6EngineOracle : PlayOracle :=
  { fg_roll := 1/2, punt_distance := 40, pass_chosen := false, yards := 4,
    intercepted := false, fumbled := false }

/-- Witness for C6 (amended): the engine loop with a constant run-play
stream stays within the 150-play cap, and the game.py loop started in a
quarter-5 state exits with `clock.quarter > 4`. -/
theorem C6_termination_amended_witness :
    (Engine.simulate_game true (fun _ => c6EngineOracle)).2 ≤ 150 ∧
    c6Over.clock.quarter > 4 := by
  refine ⟨C6_termination_amended.1 true _, ?_⟩
  exact C6_termination_amended.2 (fun _ => c6Oracle) 1 0 c6Over c6Over rfl
